import Mathlib

/-!
Verification of the PySpark structured-error core
(`python/pyspark/errors/exceptions/base.py`).

The development shallowly embeds the module: `PySparkException` instances
become a Lean structure, the constructor `__init__` becomes an
`Except`-returning function (its `assert` is a guard whose failure is the
`assertionError` outcome, and a failure raised by the template registry
propagates as `registryError`), and the accessors become Lean functions.
The class taxonomy declared below `PySparkException` carries no code of its
own in the source; it is embedded as an inductive of class names with the
inheritance lists written in the source, together with Python-style method
resolution over each class's MRO.

The external collaborator `ErrorClassesReader` lives in
`pyspark/errors/utils.py`, which is not part of the sources under
verification; it is modelled from the specification of the
TemplateRegistry service (resolution fails on an unknown class id or on a
placeholder with no supplied value, otherwise substitutes the parameters
into the template).
-/

/-- One piece of a message template: either literal text or a named
placeholder to be substituted from the message parameters.
Modelled from the spec: the template format belongs to the external
TemplateRegistry, not to the sources under verification. -/
inductive TemplatePart where
  | lit (s : String)
  | param (name : String)
deriving DecidableEq

/-- A failure raised by template resolution.
Modelled from the spec: TemplateRegistry.resolve fails with
UnknownErrorClass if the class id is not registered and with
MissingParameter if the template references a placeholder absent from the
supplied parameters. -/
inductive RegistryError where
  | unknownErrorClass (classId : String)
  | missingParameter (name : String)
deriving DecidableEq

/-- Message parameters: a mapping from placeholder names to values,
embedded as an association list. -/
abbrev Params := List (String × String)

/-- First value bound to a key in an association list. -/
def alistLookup {α : Type} (l : List (String × α)) (k : String) : Option α :=
  (l.find? (fun kv => kv.1 == k)).map (fun kv => kv.2)

/-- Substitute parameters into a template, left to right.
Modelled from the spec: a placeholder with no supplied value makes
resolution fail with MissingParameter. -/
def renderTemplate (params : Params) : List TemplatePart → Except RegistryError String
  | [] => Except.ok ""
  | TemplatePart.lit s :: rest =>
      (renderTemplate params rest).map (fun r => s ++ r)
  | TemplatePart.param n :: rest =>
      match alistLookup params n with
      | some v => (renderTemplate params rest).map (fun r => v ++ r)
      | none => Except.error (RegistryError.missingParameter n)

/-- The registry of message templates, keyed by error-class id.
Modelled from the spec: the on-disk catalog and its loader are external;
the core only depends on the resolve operation. -/
structure ErrorClassesReader where
  templates : List (String × List TemplatePart)
deriving DecidableEq

/-- Resolution of an error class against the registry.
Modelled from the spec: fails with UnknownErrorClass when the class id is
not registered, otherwise substitutes the parameters into the registered
template (failing with MissingParameter on an unsupplied placeholder). -/
def ErrorClassesReader.get_error_message (reader : ErrorClassesReader)
    (error_class : String) (message_parameters : Params) :
    Except RegistryError String :=
  match alistLookup reader.templates error_class with
  | none => Except.error (RegistryError.unknownErrorClass error_class)
  | some tpl => renderTemplate message_parameters tpl

/-- The state of a constructed `PySparkException`: exactly the attributes
`__init__` assigns on `self` (`error_reader`, `message` — the resolved
message —, `error_class`, `message_parameters`). -/
structure PySparkException where
  error_reader : ErrorClassesReader
  message : String
  error_class : Option String
  message_parameters : Option Params
deriving DecidableEq

/-- A construction failure: either the `assert` at the top of `__init__`
fires (contract violation), or the registry raises during message
resolution and the failure propagates out of the constructor (there is no
handler in `__init__`). -/
inductive ConstructError where
  | assertionError
  | registryError (e : RegistryError)
deriving DecidableEq

/-- The mutual-exclusivity condition asserted at the top of `__init__`:
`(message is not None and (error_class is None and message_parameters is
None)) or (message is None and (error_class is not None and
message_parameters is not None))`. -/
def PySparkException.initAssertCond (message error_class : Option String)
    (message_parameters : Option Params) : Bool :=
  (message.isSome && (error_class.isNone && message_parameters.isNone)) ||
    (message.isNone && (error_class.isSome && message_parameters.isSome))

/-- Embeds `PySparkException.__init__`. The `assert` is checked first; when
it fails the construction ends with `assertionError`. Otherwise, when
`message` is none the resolved message is obtained from
`error_reader.get_error_message(error_class, message_parameters)` (the
`cast` calls in the source are identity coercions: under the assert both
arguments are non-none in this branch), and a registry failure propagates.
When `message` is some, it is stored verbatim. In both success branches
`error_class` and `message_parameters` are stored as passed. The match arms
for `message = none` with `error_class` or `message_parameters` equal to
none are unreachable under the guard. The `error_reader` attribute is the
registry instance constructed by `__init__`; it is passed explicitly here. -/
def PySparkException.init (error_reader : ErrorClassesReader)
    (message error_class : Option String)
    (message_parameters : Option Params) :
    Except ConstructError PySparkException :=
  if PySparkException.initAssertCond message error_class message_parameters then
    match message, error_class, message_parameters with
    | some m, ec, mp =>
        Except.ok ⟨error_reader, m, ec, mp⟩
    | none, some c, some p =>
        match error_reader.get_error_message c p with
        | Except.ok m =>
            Except.ok ⟨error_reader, m, some c, some p⟩
        | Except.error e => Except.error (ConstructError.registryError e)
    | none, none, _ => Except.error ConstructError.assertionError
    | none, _, none => Except.error ConstructError.assertionError
  else
    Except.error ConstructError.assertionError

/-- Embeds `getErrorClass`: `return self.error_class`. -/
def PySparkException.getErrorClass (e : PySparkException) : Option String :=
  e.error_class

/-- Embeds `getMessageParameters`: `return self.message_parameters`. -/
def PySparkException.getMessageParameters (e : PySparkException) :
    Option Params :=
  e.message_parameters

/-- Embeds `getSqlState`: the body is `return None`. The spec documents the
return as an optional string that is absent in this core, so the value is
`none` of `Option String`. -/
def PySparkException.getSqlState (_e : PySparkException) : Option String :=
  none

/-- Modelled from the spec: the source line `def isTransientError(self) ->
None:` has no indented body (the next line is the `def` of `__str__`), so
the method body is missing from the sources. The spec describes a hook that
returns a constant non-transient ("no") marker, and the return annotation
in the source is `None`; the modelled hook therefore returns `none`
constantly. -/
def PySparkException.isTransientError (_e : PySparkException) : Option Bool :=
  none

/-- Embeds `__str__`: `"[" + getErrorClass() + "] " + message` when the
error class is present, else `message` alone. -/
def PySparkException.str (e : PySparkException) : String :=
  match e.getErrorClass with
  | some c => "[" ++ c ++ "] " ++ e.message
  | none => e.message

/-- State-passing form of `getErrorClass`: the body reads
`self.error_class` and performs no assignment, so the instance comes back
unchanged. -/
def PySparkException.getErrorClassCall (e : PySparkException) :
    Option String × PySparkException :=
  (e.error_class, e)

/-- State-passing form of `getMessageParameters`: the body reads
`self.message_parameters` and performs no assignment. -/
def PySparkException.getMessageParametersCall (e : PySparkException) :
    Option Params × PySparkException :=
  (e.message_parameters, e)

/-- State-passing form of `getSqlState`: the body is `return None` with no
assignment. -/
def PySparkException.getSqlStateCall (e : PySparkException) :
    Option String × PySparkException :=
  ((none : Option String), e)

/-- State-passing form of `__str__`: the body calls `self.getErrorClass()`
twice in the class branch (once in the test, once in the f-string) and
reads `self.message`, with no assignment anywhere. -/
def PySparkException.strCall (e : PySparkException) :
    String × PySparkException :=
  match e.getErrorClassCall with
  | (some _, e1) =>
      match e1.getErrorClassCall with
      | (c2, e2) => ("[" ++ c2.getD "None" ++ "] " ++ e2.message, e2)
  | (none, e1) => (e1.message, e1)

/-- The class names occurring in the module, together with the Python
builtins they inherit from. -/
inductive ExcClass where
  | Exception
  | ValueError
  | TypeError
  | AttributeError
  | PySparkException
  | AnalysisException
  | TempTableAlreadyExistsException
  | ParseException
  | IllegalArgumentException
  | ArithmeticException
  | ArrayIndexOutOfBoundsException
  | DateTimeException
  | NumberFormatException
  | StreamingQueryException
  | QueryExecutionException
  | PythonException
  | SparkRuntimeException
  | SparkUpgradeException
  | UnknownException
  | PySparkValueError
  | PySparkTypeError
  | PySparkAttributeError
deriving DecidableEq, BEq

/-- Method resolution order of each class, as Python computes it from the
base-class lists written in the source: every subclass of
`PySparkException` carries an empty body, the three interop classes list
`PySparkException` first and the builtin second, so `PySparkException`
precedes the builtin in their MRO. Builtins are truncated at `Exception`,
the root of this hierarchy. -/
def ExcClass.mro : ExcClass → List ExcClass
  | ExcClass.Exception => [ExcClass.Exception]
  | ExcClass.ValueError => [ExcClass.ValueError, ExcClass.Exception]
  | ExcClass.TypeError => [ExcClass.TypeError, ExcClass.Exception]
  | ExcClass.AttributeError => [ExcClass.AttributeError, ExcClass.Exception]
  | ExcClass.PySparkException => [ExcClass.PySparkException, ExcClass.Exception]
  | ExcClass.AnalysisException =>
      [ExcClass.AnalysisException, ExcClass.PySparkException, ExcClass.Exception]
  | ExcClass.TempTableAlreadyExistsException =>
      [ExcClass.TempTableAlreadyExistsException, ExcClass.AnalysisException,
        ExcClass.PySparkException, ExcClass.Exception]
  | ExcClass.ParseException =>
      [ExcClass.ParseException, ExcClass.AnalysisException,
        ExcClass.PySparkException, ExcClass.Exception]
  | ExcClass.IllegalArgumentException =>
      [ExcClass.IllegalArgumentException, ExcClass.PySparkException, ExcClass.Exception]
  | ExcClass.ArithmeticException =>
      [ExcClass.ArithmeticException, ExcClass.PySparkException, ExcClass.Exception]
  | ExcClass.ArrayIndexOutOfBoundsException =>
      [ExcClass.ArrayIndexOutOfBoundsException, ExcClass.PySparkException, ExcClass.Exception]
  | ExcClass.DateTimeException =>
      [ExcClass.DateTimeException, ExcClass.PySparkException, ExcClass.Exception]
  | ExcClass.NumberFormatException =>
      [ExcClass.NumberFormatException, ExcClass.IllegalArgumentException,
        ExcClass.PySparkException, ExcClass.Exception]
  | ExcClass.StreamingQueryException =>
      [ExcClass.StreamingQueryException, ExcClass.PySparkException, ExcClass.Exception]
  | ExcClass.QueryExecutionException =>
      [ExcClass.QueryExecutionException, ExcClass.PySparkException, ExcClass.Exception]
  | ExcClass.PythonException =>
      [ExcClass.PythonException, ExcClass.PySparkException, ExcClass.Exception]
  | ExcClass.SparkRuntimeException =>
      [ExcClass.SparkRuntimeException, ExcClass.PySparkException, ExcClass.Exception]
  | ExcClass.SparkUpgradeException =>
      [ExcClass.SparkUpgradeException, ExcClass.PySparkException, ExcClass.Exception]
  | ExcClass.UnknownException =>
      [ExcClass.UnknownException, ExcClass.PySparkException, ExcClass.Exception]
  | ExcClass.PySparkValueError =>
      [ExcClass.PySparkValueError, ExcClass.PySparkException,
        ExcClass.ValueError, ExcClass.Exception]
  | ExcClass.PySparkTypeError =>
      [ExcClass.PySparkTypeError, ExcClass.PySparkException,
        ExcClass.TypeError, ExcClass.Exception]
  | ExcClass.PySparkAttributeError =>
      [ExcClass.PySparkAttributeError, ExcClass.PySparkException,
        ExcClass.AttributeError, ExcClass.Exception]

/-- The methods of the error surface. -/
inductive Method where
  | initM
  | getErrorClassM
  | getMessageParametersM
  | getSqlStateM
  | isTransientErrorM
  | strM
deriving DecidableEq

/-- Which classes define which methods in their own body: in the source,
`PySparkException` is the only class of the module that defines any method
(every subclass body is a bare docstring); the builtin `Exception` supplies
default `__init__` and `__str__`. -/
def classDefines : ExcClass → Method → Bool
  | ExcClass.PySparkException, _ => true
  | ExcClass.Exception, Method.initM => true
  | ExcClass.Exception, Method.strM => true
  | _, _ => false

/-- Python attribute lookup: the first class along the MRO whose own body
defines the method. -/
def resolveMethod (c : ExcClass) (m : Method) : Option ExcClass :=
  c.mro.find? (fun k => classDefines k m)

/-- An instance of one of the module's classes: its class tag plus the one
copy of the `PySparkException` state (`__init__` runs once, whichever class
is instantiated, and stores the attributes on the single `self`). -/
structure PySparkErrorInstance where
  cls : ExcClass
  state : PySparkException
deriving DecidableEq

/-- Python `isinstance`: the candidate class occurs in the MRO of the
instance's class. -/
def PySparkErrorInstance.isInstanceOf (i : PySparkErrorInstance)
    (c : ExcClass) : Bool :=
  i.cls.mro.contains c

/-- Dispatch of `__init__` on a class: follows the MRO to the defining
class; yields `some` of the behaviour when the body found is the one
written in this module, `none` when resolution leaves the module (builtin
default) or fails. -/
def dispatchInit (c : ExcClass) (reader : ErrorClassesReader)
    (message error_class : Option String) (message_parameters : Option Params) :
    Option (Except ConstructError PySparkErrorInstance) :=
  match resolveMethod c Method.initM with
  | some ExcClass.PySparkException =>
      some ((PySparkException.init reader message error_class
        message_parameters).map (fun s => ⟨c, s⟩))
  | _ => none

/-- Dispatch of `__str__` on a class, along the MRO. -/
def dispatchStr (c : ExcClass) (e : PySparkException) : Option String :=
  match resolveMethod c Method.strM with
  | some ExcClass.PySparkException => some (PySparkException.str e)
  | _ => none

/-- Dispatch of `getErrorClass` on a class, along the MRO. -/
def dispatchGetErrorClass (c : ExcClass) (e : PySparkException) :
    Option (Option String) :=
  match resolveMethod c Method.getErrorClassM with
  | some ExcClass.PySparkException => some (PySparkException.getErrorClass e)
  | _ => none

/-- Dispatch of `getMessageParameters` on a class, along the MRO. -/
def dispatchGetMessageParameters (c : ExcClass) (e : PySparkException) :
    Option (Option Params) :=
  match resolveMethod c Method.getMessageParametersM with
  | some ExcClass.PySparkException =>
      some (PySparkException.getMessageParameters e)
  | _ => none

/-- Dispatch of `getSqlState` on a class, along the MRO. -/
def dispatchGetSqlState (c : ExcClass) (e : PySparkException) :
    Option (Option String) :=
  match resolveMethod c Method.getSqlStateM with
  | some ExcClass.PySparkException => some (PySparkException.getSqlState e)
  | _ => none

/-- The classes the module declares below `PySparkException`: the failure
taxonomy (AnalysisException through UnknownException) and the three interop
classes. -/
def isSparkVariant : ExcClass → Bool
  | ExcClass.AnalysisException => true
  | ExcClass.TempTableAlreadyExistsException => true
  | ExcClass.ParseException => true
  | ExcClass.IllegalArgumentException => true
  | ExcClass.ArithmeticException => true
  | ExcClass.ArrayIndexOutOfBoundsException => true
  | ExcClass.DateTimeException => true
  | ExcClass.NumberFormatException => true
  | ExcClass.StreamingQueryException => true
  | ExcClass.QueryExecutionException => true
  | ExcClass.PythonException => true
  | ExcClass.SparkRuntimeException => true
  | ExcClass.SparkUpgradeException => true
  | ExcClass.UnknownException => true
  | ExcClass.PySparkValueError => true
  | ExcClass.PySparkTypeError => true
  | ExcClass.PySparkAttributeError => true
  | _ => false

/-- Exactly one of two booleans holds. -/
def exactlyOne (a b : Bool) : Bool :=
  (a && !b) || (!a && b)

/-- A sample registry for concrete evaluations: the DATETIME_OVERFLOW class
of the spec's Scenario A. -/
def sampleReader : ErrorClassesReader :=
  ⟨[("DATETIME_OVERFLOW",
      [TemplatePart.lit "value ", TemplatePart.param "value",
        TemplatePart.lit " overflows datetime range"])]⟩

/-- A sample constructed instance state, from the literal message "boom". -/
def sampleExc : PySparkException :=
  ⟨sampleReader, "boom", none, none⟩

/-- C1: constructing with both a literal message and a non-none error class
fails with a contract violation (whatever the message parameters),
constructing with neither a literal message nor a class fails with a
contract violation, and a construction that succeeds satisfies exactly one
of {literal message present} or {error class and message parameters both
present}. -/
theorem c1_construction_contract (reader : ErrorClassesReader)
    (m ec : Option String) (mp : Option Params) :
    (m.isSome = true → ec.isSome = true →
      PySparkException.init reader m ec mp
        = Except.error ConstructError.assertionError)
    ∧ (m = none → ec = none →
      PySparkException.init reader m ec mp
        = Except.error ConstructError.assertionError)
    ∧ (∀ e, PySparkException.init reader m ec mp = Except.ok e →
      exactlyOne m.isSome (ec.isSome && mp.isSome) = true) := by
  refine ⟨?_, ?_, ?_⟩
  · intro hm hec
    cases m with
    | none => simp at hm
    | some a =>
      cases ec with
      | none => simp at hec
      | some c =>
        cases mp <;>
          simp [PySparkException.init, PySparkException.initAssertCond]
  · intro hm hec
    subst hm
    subst hec
    cases mp <;>
      simp [PySparkException.init, PySparkException.initAssertCond]
  · intro e he
    cases m <;> cases ec <;> cases mp <;>
      simp_all [PySparkException.init, PySparkException.initAssertCond,
        exactlyOne]

/-- Witness for C1 at concrete inputs: both-present and neither-present
constructions fail, and a successful literal construction satisfies the
exactly-one condition. -/
theorem c1_construction_contract_witness :
    PySparkException.init sampleReader (some "boom") (some "DATETIME_OVERFLOW") none
      = Except.error ConstructError.assertionError
    ∧ PySparkException.init sampleReader none none none
      = Except.error ConstructError.assertionError
    ∧ exactlyOne (some "boom" : Option String).isSome
        ((none : Option String).isSome && (none : Option Params).isSome) = true := by
  refine ⟨(c1_construction_contract sampleReader (some "boom")
      (some "DATETIME_OVERFLOW") none).1 rfl rfl,
    (c1_construction_contract sampleReader none none none).2.1 rfl rfl,
    (c1_construction_contract sampleReader (some "boom") none none).2.2
      sampleExc rfl⟩

/-- C2: for every construction from a class id and a parameter mapping that
the registry resolves, construction succeeds, the display string is
"[" ++ classId ++ "] " ++ resolvedMessage with resolvedMessage the string
the registry returned, and getMessageParameters returns the exact mapping
supplied (getErrorClass the exact class id). -/
theorem c2_class_construction (reader : ErrorClassesReader) (classId : String)
    (params : Params) (resolved : String)
    (h : reader.get_error_message classId params = Except.ok resolved) :
    ∃ e, PySparkException.init reader none (some classId) (some params)
        = Except.ok e
      ∧ PySparkException.str e = "[" ++ classId ++ "] " ++ resolved
      ∧ PySparkException.getMessageParameters e = some params
      ∧ PySparkException.getErrorClass e = some classId := by
  refine ⟨⟨reader, resolved, some classId, some params⟩, ?_, rfl, rfl, rfl⟩
  simp [PySparkException.init, PySparkException.initAssertCond, h]

/-- Witness for C2: Scenario A of the spec, class DATETIME_OVERFLOW with
parameter value = 9999-99-99. -/
theorem c2_class_construction_witness :
    sampleReader.get_error_message "DATETIME_OVERFLOW" [("value", "9999-99-99")]
      = Except.ok "value 9999-99-99 overflows datetime range"
    ∧ ∃ e, PySparkException.init sampleReader none (some "DATETIME_OVERFLOW")
          (some [("value", "9999-99-99")]) = Except.ok e
        ∧ PySparkException.str e
          = "[" ++ "DATETIME_OVERFLOW" ++ "] "
            ++ "value 9999-99-99 overflows datetime range"
        ∧ PySparkException.getMessageParameters e
          = some [("value", "9999-99-99")]
        ∧ PySparkException.getErrorClass e = some "DATETIME_OVERFLOW" :=
  ⟨rfl, c2_class_construction sampleReader "DATETIME_OVERFLOW"
    [("value", "9999-99-99")] "value 9999-99-99 overflows datetime range" rfl⟩

/-- C3: every construction from a literal message (error class and message
parameters unset) succeeds, its display string is the literal message
exactly, and getErrorClass returns none. -/
theorem c3_literal_construction (reader : ErrorClassesReader) (msg : String) :
    PySparkException.init reader (some msg) none none
      = Except.ok ⟨reader, msg, none, none⟩
    ∧ PySparkException.str ⟨reader, msg, none, none⟩ = msg
    ∧ PySparkException.getErrorClass ⟨reader, msg, none, none⟩ = none :=
  ⟨rfl, rfl, rfl⟩

/-- C4: when registry resolution fails (unknown class id or missing
placeholder), the class-based construction ends in exactly that failure: no
instance is produced, no fallback message is substituted, and the failure
is not downgraded. -/
theorem c4_resolution_failure_propagates (reader : ErrorClassesReader)
    (classId : String) (params : Params) (err : RegistryError)
    (h : reader.get_error_message classId params = Except.error err) :
    PySparkException.init reader none (some classId) (some params)
      = Except.error (ConstructError.registryError err) := by
  simp [PySparkException.init, PySparkException.initAssertCond, h]

/-- Witness for C4: Scenario C of the spec, the unregistered class
NOT_REGISTERED. -/
theorem c4_resolution_failure_propagates_witness :
    sampleReader.get_error_message "NOT_REGISTERED" []
      = Except.error (RegistryError.unknownErrorClass "NOT_REGISTERED")
    ∧ PySparkException.init sampleReader none (some "NOT_REGISTERED") (some [])
      = Except.error (ConstructError.registryError
          (RegistryError.unknownErrorClass "NOT_REGISTERED")) :=
  ⟨rfl, c4_resolution_failure_propagates sampleReader "NOT_REGISTERED" []
    (RegistryError.unknownErrorClass "NOT_REGISTERED") rfl⟩

/-- C5: the modelled isTransientError hook returns the constant absent
(non-transient) marker on every instance. In the source the method body is
missing altogether (the def line is followed directly by the def of the
next method), so the module as written does not parse; the definition used
here is modelled from the spec and the return annotation. -/
theorem c5_isTransientError_constant (e : PySparkException) :
    PySparkException.isTransientError e = none := rfl

/-- C6: getSqlState returns the absent value on every instance, whichever
way it was constructed. -/
theorem c6_getSqlState_none (e : PySparkException) :
    PySparkException.getSqlState e = none := rfl

/-- C7: every NumberFormatException instance is also an instance of
IllegalArgumentException and of PySparkException, and every
PySparkValueError instance is simultaneously an instance of
PySparkException and of the builtin ValueError; both classification paths
dispatch to the single PySparkException accessor bodies reading the one
copy of the state s (the instance structure carries exactly one state
field). -/
theorem c7_interop_classification (s : PySparkException) :
    PySparkErrorInstance.isInstanceOf
        ⟨ExcClass.NumberFormatException, s⟩ ExcClass.IllegalArgumentException = true
    ∧ PySparkErrorInstance.isInstanceOf
        ⟨ExcClass.NumberFormatException, s⟩ ExcClass.PySparkException = true
    ∧ PySparkErrorInstance.isInstanceOf
        ⟨ExcClass.PySparkValueError, s⟩ ExcClass.PySparkException = true
    ∧ PySparkErrorInstance.isInstanceOf
        ⟨ExcClass.PySparkValueError, s⟩ ExcClass.ValueError = true
    ∧ dispatchGetErrorClass ExcClass.PySparkValueError s
        = some (PySparkException.getErrorClass s)
    ∧ dispatchGetMessageParameters ExcClass.PySparkValueError s
        = some (PySparkException.getMessageParameters s)
    ∧ dispatchGetErrorClass ExcClass.NumberFormatException s
        = some (PySparkException.getErrorClass s) :=
  ⟨rfl, rfl, rfl, rfl, rfl, rfl, rfl⟩

/-- C8: no class of the taxonomy (nor any interop class) overrides
construction, resolution or rendering: method resolution on every variant
reaches the PySparkException bodies, so a variant constructed with given
arguments yields the same state, display string, error class, message
parameters and SQL state as PySparkException itself with the same
arguments. -/
theorem c8_no_variant_overrides (v : ExcClass) (hv : isSparkVariant v = true)
    (reader : ErrorClassesReader) (m ec : Option String) (mp : Option Params)
    (s : PySparkException) :
    dispatchInit v reader m ec mp
      = some ((PySparkException.init reader m ec mp).map
          (fun st => ⟨v, st⟩))
    ∧ dispatchStr v s = some (PySparkException.str s)
    ∧ dispatchGetErrorClass v s = some (PySparkException.getErrorClass s)
    ∧ dispatchGetMessageParameters v s
      = some (PySparkException.getMessageParameters s)
    ∧ dispatchGetSqlState v s = some (PySparkException.getSqlState s) := by
  cases v <;>
    first
    | exact absurd hv (by decide)
    | exact ⟨rfl, rfl, rfl, rfl, rfl⟩

/-- Witness for C8 at the variant NumberFormatException with concrete
arguments. -/
theorem c8_no_variant_overrides_witness :
    isSparkVariant ExcClass.NumberFormatException = true
    ∧ (dispatchInit ExcClass.NumberFormatException sampleReader (some "boom") none none
        = some ((PySparkException.init sampleReader (some "boom") none none).map
            (fun st => ⟨ExcClass.NumberFormatException, st⟩))
      ∧ dispatchStr ExcClass.NumberFormatException sampleExc
        = some (PySparkException.str sampleExc)
      ∧ dispatchGetErrorClass ExcClass.NumberFormatException sampleExc
        = some (PySparkException.getErrorClass sampleExc)
      ∧ dispatchGetMessageParameters ExcClass.NumberFormatException sampleExc
        = some (PySparkException.getMessageParameters sampleExc)
      ∧ dispatchGetSqlState ExcClass.NumberFormatException sampleExc
        = some (PySparkException.getSqlState sampleExc)) :=
  ⟨rfl, c8_no_variant_overrides ExcClass.NumberFormatException rfl
    sampleReader (some "boom") none none sampleExc⟩

/-- C9: every accessor, in state-passing form, returns the instance
unchanged (no accessor body contains an assignment), a second call yields
the same result as the first, and the display call agrees with the pure
rendering function. -/
theorem c9_accessors_pure (e : PySparkException) :
    (e.getErrorClassCall).2 = e
    ∧ (e.getMessageParametersCall).2 = e
    ∧ (e.getSqlStateCall).2 = e
    ∧ (e.strCall).2 = e
    ∧ ((e.getErrorClassCall).2.getErrorClassCall).1 = (e.getErrorClassCall).1
    ∧ ((e.getMessageParametersCall).2.getMessageParametersCall).1
      = (e.getMessageParametersCall).1
    ∧ ((e.getSqlStateCall).2.getSqlStateCall).1 = (e.getSqlStateCall).1
    ∧ ((e.strCall).2.strCall).1 = (e.strCall).1
    ∧ (e.strCall).1 = PySparkException.str e := by
  obtain ⟨r, m, ec, mp⟩ := e
  cases ec <;>
    simp [PySparkException.getErrorClassCall,
      PySparkException.getMessageParametersCall,
      PySparkException.getSqlStateCall, PySparkException.strCall,
      PySparkException.str, PySparkException.getErrorClass]

/-- C10: constructing with a literal message together with a non-none
message-parameters mapping, the error class being absent, fails the
construction-time contract check. -/
theorem c10_literal_with_params_fails (reader : ErrorClassesReader)
    (msg : String) (p : Params) :
    PySparkException.init reader (some msg) none (some p)
      = Except.error ConstructError.assertionError := rfl
